import Mathlib

/-!
Shallow embedding of the capture-and-conversion core of the Voxel depth-camera
driver (src/Voxel/DepthCamera.cpp), with theorems settling the spec claims
about callback dispatch, the subscription mask, parameter registration, the
session state machine, the capture-loop iteration and the depth-to-point-cloud
conversion.
-/

namespace Voxel

/-- Modelled from the spec: the header declaring the stage-identifier
enumeration is not under src/.  The spec describes the four stages as a
fixed-size table "indexed by raw integer stage ids" with
`CALLBACK_TYPE_COUNT` members and the invariant "bit *i* is set in the mask
iff slot *i* is non-empty"; accordingly the ids are 0,1,2,3 in pipeline
order and stage *i* has subscription bit `1 <<< i` (the bit that
`registerCallback` sets via `1 << type` in the source). -/
def CALLBACK_RAW_FRAME_UNPROCESSED : Nat := 0

/-- Stage id of the processed-raw stage (spec-modelled, see
`CALLBACK_RAW_FRAME_UNPROCESSED`). -/
def CALLBACK_RAW_FRAME_PROCESSED : Nat := 1

/-- Stage id of the depth stage (spec-modelled). -/
def CALLBACK_DEPTH_FRAME : Nat := 2

/-- Stage id of the point-cloud stage (spec-modelled). -/
def CALLBACK_XYZI_POINT_CLOUD_FRAME : Nat := 3

/-- Number of callback slots (`CALLBACK_TYPE_COUNT` in the source header,
spec-modelled: four stages). -/
def CALLBACK_TYPE_COUNT : Nat := 4

/-- The per-stage callback table of a `DepthCamera`: `callback i` says
whether slot `i` holds a (non-null) callback (`_callback[i]` in the source),
and `registeredMask` is the subscription bitmask
(`_callBackTypesRegistered`). -/
structure CallbackTable where
  callback : Fin 4 → Bool
  registeredMask : Nat

/-- The table of a freshly constructed camera: every slot empty, mask 0. -/
def CallbackTable.empty : CallbackTable :=
  { callback := fun _ => false, registeredMask := 0 }

namespace DepthCamera

/-- Embedding of `DepthCamera::registerCallback` (DepthCamera.cpp lines
38-51): for a valid type (`type < CALLBACK_TYPE_COUNT`) it sets bit
`1 << type` in `_callBackTypesRegistered`, stores the callback in slot
`type` and returns true; otherwise it returns false and changes nothing.
The stored callback is modelled as occupying the slot (`true`). -/
def registerCallback (tbl : CallbackTable) (ty : Nat) : Bool × CallbackTable :=
  if ty < CALLBACK_TYPE_COUNT then
    (true,
      { callback := fun j => if j.val = ty then true else tbl.callback j,
        registeredMask := tbl.registeredMask ||| (1 <<< ty) })
  else
    (false, tbl)

/-- Embedding of `DepthCamera::clearCallback` (lines 32-36): the loop
`for(i < CALLBACK_TYPE_COUNT) _callback[i] = 0` empties every slot; the
function does not touch `_callBackTypesRegistered`. -/
def clearCallback (tbl : CallbackTable) : CallbackTable :=
  { callback := fun _ => false, registeredMask := tbl.registeredMask }

/-- Clear the bits of `t` from `m`, i.e. `m & ~t` on `uint32_t` expressed on
`Nat` (xor with the common bits). -/
def clearBits (m t : Nat) : Nat := m ^^^ (m &&& t)

/-- Embedding of `DepthCamera::_callbackAndContinue` (lines 53-63).  Returns
`(invoked, pendingMask, cont)` where `invoked` records that the code calls
the function object stored in slot `ty`
(`if((callBackTypesToBeCalled | type) and _callback[type])` - note the
inclusive OR of the mask with the numeric stage id), `pendingMask` is the
mask after `callBackTypesToBeCalled &= ~type`, and `cont` is the returned
`callBackTypesToBeCalled != 0`. -/
def callbackAndContinue (tbl : CallbackTable) (pending : Nat) (ty : Fin 4) :
    Bool × Nat × Bool :=
  let invoked := ((pending ||| ty.val) != 0) && tbl.callback ty
  let pending1 := clearBits pending ty.val
  (invoked, pending1, pending1 != 0)

end DepthCamera

/-- The callback-table invariant stated by the spec: bit `i` of the
subscription mask is set iff slot `i` is non-empty. -/
def tableInvariant (tbl : CallbackTable) : Prop :=
  ∀ i : Fin 4, tbl.registeredMask.testBit i.val = tbl.callback i

instance (tbl : CallbackTable) : Decidable (tableInvariant tbl) := by
  unfold tableInvariant; infer_instance

/-- On booleans, cancelling the common part of `a` and `b` out of `a` leaves
`a && !b`; this is the per-bit content of `m & ~t = m ^ (m & t)`. -/
theorem bool_xor_and_self (a b : Bool) : (a ^^ (a && b)) = (a && !b) := by
  cases a <;> cases b <;> rfl

/-- Per-bit description of `DepthCamera.clearBits`: bit `i` survives iff it
was set in `m` and is not set in `t`. -/
theorem clearBits_testBit (m t i : Nat) :
    (DepthCamera.clearBits m t).testBit i = (m.testBit i && !(t.testBit i)) := by
  unfold DepthCamera.clearBits
  rw [Nat.testBit_xor, Nat.testBit_land, bool_xor_and_self]

/-- The numeric value of a stage id never has its own-index bit set
(`n < 2 ^ n`). -/
theorem stageId_testBit_self (ty : Fin 4) : (ty.val).testBit ty.val = false := by
  fin_cases ty <;> decide

/-- C1: `_callbackAndContinue` joins the pending mask and the stage id with
an inclusive OR (`callBackTypesToBeCalled | type`), not a bit-membership
test, so with pending mask 0 and the depth stage (id 2, whose subscription
bit is absent from mask 0) it still invokes the registered callback; the
claim (and the spec's intended AND semantics) requires no invocation. -/
theorem claim1_dispatch_fires_without_mask_bit :
    (DepthCamera.callbackAndContinue
        (DepthCamera.registerCallback CallbackTable.empty CALLBACK_DEPTH_FRAME).2
        0 (2 : Fin 4)).1 = true
    ∧ Nat.testBit 0 CALLBACK_DEPTH_FRAME = false := by
  decide

/-- C4 counterexample: after registering a callback for stage 0 (which sets
mask bit 0) and then calling `clearCallback`, the subscription mask is not
zero, contradicting the claim that `clearCallback` zeroes every slot and
bit. -/
theorem claim4_counterexample :
    ¬ ((DepthCamera.clearCallback
        (DepthCamera.registerCallback CallbackTable.empty
          CALLBACK_RAW_FRAME_UNPROCESSED).2).registeredMask = 0) := by
  decide

/-- C4 (amended): `registerCallback` preserves the invariant "bit `i` set
iff slot `i` non-empty", and `clearCallback` empties every slot and is
idempotent, but it leaves the subscription mask exactly as it was, so the
invariant is not restored when the mask was non-zero. -/
theorem claim4_register_invariant_clear_slots_only :
    (∀ (tbl : CallbackTable) (ty : Nat), tableInvariant tbl →
        tableInvariant (DepthCamera.registerCallback tbl ty).2)
    ∧ (∀ tbl : CallbackTable,
        (DepthCamera.clearCallback tbl).callback = (fun _ => false)
        ∧ (DepthCamera.clearCallback tbl).registeredMask = tbl.registeredMask
        ∧ DepthCamera.clearCallback (DepthCamera.clearCallback tbl) =
            DepthCamera.clearCallback tbl) := by
  constructor
  · intro tbl ty h
    unfold DepthCamera.registerCallback
    by_cases hlt : ty < CALLBACK_TYPE_COUNT
    · rw [if_pos hlt]
      intro i
      show (tbl.registeredMask ||| 1 <<< ty).testBit i.val =
        (if i.val = ty then true else tbl.callback i)
      rw [Nat.one_shiftLeft, Nat.testBit_lor]
      by_cases hiy : i.val = ty
      · subst hiy
        rw [Nat.testBit_two_pow_self, if_pos rfl, Bool.or_true]
      · rw [Nat.testBit_two_pow_of_ne (fun e => hiy e.symm), if_neg hiy,
          Bool.or_false, h i]
    · rw [if_neg hlt]
      exact h
  · intro tbl
    exact ⟨rfl, rfl, rfl⟩

/-- C4 witness: the invariant holds for the empty table, and (by the
theorem) registering the depth-stage callback preserves it. -/
theorem claim4_witness :
    tableInvariant CallbackTable.empty
    ∧ tableInvariant
        (DepthCamera.registerCallback CallbackTable.empty CALLBACK_DEPTH_FRAME).2 :=
  ⟨by decide,
    claim4_register_invariant_clear_slots_only.1 CallbackTable.empty
      CALLBACK_DEPTH_FRAME (by decide)⟩

/-- C5 counterexample: `registerCallback` gives stage 2 (depth) the
subscription bit 2 (mask value 4), but `_callbackAndContinue` on the pending
mask 4 clears `~type = ~2` (bit 1), so bit 2 stays set and the function
returns true; the claim says the subscription bit is cleared, which would
give mask 0 and return false. -/
theorem claim5_counterexample :
    (DepthCamera.registerCallback CallbackTable.empty
        CALLBACK_DEPTH_FRAME).2.registeredMask = 4
    ∧ Nat.testBit ((DepthCamera.callbackAndContinue CallbackTable.empty 4
        (2 : Fin 4)).2.1) 2 = true
    ∧ (DepthCamera.callbackAndContinue CallbackTable.empty 4 (2 : Fin 4)).2.2
        = true := by
  decide

/-- C5 (amended): `_callbackAndContinue` unconditionally clears from the
pending mask the bits of the stage id's numeric value (`mask &= ~type`),
not the stage's subscription bit `1 << type` set by `registerCallback`; in
particular the stage's own subscription bit (bit `type`) always survives,
and the function returns true iff the resulting pending mask is non-zero. -/
theorem claim5_clears_numeric_id_bits :
    ∀ (tbl : CallbackTable) (pending : Nat) (ty : Fin 4),
      (∀ i : Nat,
        ((DepthCamera.callbackAndContinue tbl pending ty).2.1).testBit i
          = (pending.testBit i && !((ty.val).testBit i)))
      ∧ ((DepthCamera.callbackAndContinue tbl pending ty).2.1).testBit ty.val
          = pending.testBit ty.val
      ∧ ((DepthCamera.callbackAndContinue tbl pending ty).2.2 = true
          ↔ (DepthCamera.callbackAndContinue tbl pending ty).2.1 ≠ 0) := by
  intro tbl pending ty
  refine ⟨fun i => clearBits_testBit pending ty.val i, ?_, ?_⟩
  · show (DepthCamera.clearBits pending ty.val).testBit ty.val
      = pending.testBit ty.val
    rw [clearBits_testBit, stageId_testBit_self, Bool.not_false, Bool.and_true]
  · exact bne_iff_ne

/-- A registered parameter: the source stores `ParameterPtr` handles keyed
by `p->name()`; only the name takes part in the collision logic, `value`
stands for the rest of the handle. -/
structure Parameter where
  name : String
  value : Nat
deriving DecidableEq

namespace DepthCamera

/-- Embedding of `DepthCamera::_addParameters` (DepthCamera.cpp lines
13-30): walk the batch in order; a parameter whose name is not yet in
`_parameters` is inserted (`_parameters[p->name()] = p`), and the first
name that is already present makes the call return false immediately,
keeping whatever the loop inserted so far.  The map is modelled as the list
of its entries in insertion order. -/
def addParameters (m : List Parameter) : List Parameter → Bool × List Parameter
  | [] => (true, m)
  | p :: rest =>
    if m.any (fun q => q.name == p.name) then (false, m)
    else addParameters (m ++ [p]) rest

end DepthCamera

/-- Position (in the batch) of the first parameter whose name collides with
the map as it stands when the loop of `_addParameters` reaches it; `none`
when the whole batch goes through. -/
def firstCollisionIdx (m : List Parameter) : List Parameter → Option Nat
  | [] => none
  | p :: rest =>
    if m.any (fun q => q.name == p.name) then some 0
    else (firstCollisionIdx (m ++ [p]) rest).map (· + 1)

/-- C3 counterexample: with the map holding a parameter named "b", the
batch [a, b] returns failure, yet the map is no longer what it was before
the call - the fresh parameter "a" has been inserted. -/
theorem claim3_counterexample :
    (DepthCamera.addParameters [⟨"b", 0⟩] [⟨"a", 1⟩, ⟨"b", 2⟩]).1 = false
    ∧ ¬ ((DepthCamera.addParameters [⟨"b", 0⟩] [⟨"a", 1⟩, ⟨"b", 2⟩]).2
        = [⟨"b", 0⟩]) := by
  decide

/-- C3 (amended): `_addParameters` is not atomic.  When no batch name
collides (scanning in order against the growing map) it succeeds and
appends the whole batch; when the first collision happens at position `k`
it returns failure with the map holding the old entries plus exactly the
first `k` batch elements; and any batch name already present in the map at
call time forces failure. -/
theorem claim3_partial_insert :
    ∀ (m ps : List Parameter),
      (firstCollisionIdx m ps = none →
        DepthCamera.addParameters m ps = (true, m ++ ps))
      ∧ (∀ k : Nat, firstCollisionIdx m ps = some k →
          (DepthCamera.addParameters m ps).1 = false
          ∧ (DepthCamera.addParameters m ps).2 = m ++ List.take k ps)
      ∧ ((∃ p, p ∈ ps ∧ m.any (fun q => q.name == p.name) = true) →
          (DepthCamera.addParameters m ps).1 = false) := by
  intro m ps
  induction ps generalizing m with
  | nil =>
    refine ⟨fun _ => by simp [DepthCamera.addParameters], ?_, ?_⟩
    · intro k hk
      simp [firstCollisionIdx] at hk
    · rintro ⟨p, hp, _⟩
      simp at hp
  | cons p rest ih =>
    by_cases hc : m.any (fun q => q.name == p.name) = true
    · refine ⟨?_, ?_, ?_⟩
      · intro hn
        simp [firstCollisionIdx, hc] at hn
      · intro k hk
        simp [firstCollisionIdx, hc] at hk
        subst hk
        simp [DepthCamera.addParameters, hc]
      · intro _
        simp [DepthCamera.addParameters, hc]
    · rw [Bool.not_eq_true] at hc
      have hadd : DepthCamera.addParameters m (p :: rest)
          = DepthCamera.addParameters (m ++ [p]) rest := by
        simp [DepthCamera.addParameters, hc]
      have hfc : firstCollisionIdx m (p :: rest)
          = (firstCollisionIdx (m ++ [p]) rest).map (· + 1) := by
        simp [firstCollisionIdx, hc]
      refine ⟨?_, ?_, ?_⟩
      · intro hn
        rw [hfc] at hn
        cases hrec : firstCollisionIdx (m ++ [p]) rest with
        | none =>
          rw [hadd, (ih (m ++ [p])).1 hrec]
          simp
        | some k0 =>
          rw [hrec] at hn
          simp at hn
      · intro k hk
        rw [hfc] at hk
        cases hrec : firstCollisionIdx (m ++ [p]) rest with
        | none =>
          rw [hrec] at hk
          simp at hk
        | some k0 =>
          rw [hrec] at hk
          simp at hk
          obtain ⟨h1, h2⟩ := (ih (m ++ [p])).2.1 k0 hrec
          subst hk
          rw [hadd]
          refine ⟨h1, ?_⟩
          rw [h2, List.take_succ_cons]
          simp
      · rintro ⟨q, hq, hqm⟩
        rw [hadd]
        rcases List.mem_cons.mp hq with hqp | hqrest
        · subst hqp
          rw [hqm] at hc
          cases hc
        · apply (ih (m ++ [p])).2.2
          refine ⟨q, hqrest, ?_⟩
          rw [List.any_append]
          simp [hqm]

/-- C3 witness: on the counterexample input the first collision is at batch
position 1, and (by the theorem) the call fails having inserted exactly the
first batch element. -/
theorem claim3_witness :
    firstCollisionIdx [⟨"b", 0⟩] [⟨"a", 1⟩, ⟨"b", 2⟩] = some 1
    ∧ ((DepthCamera.addParameters [⟨"b", 0⟩] [⟨"a", 1⟩, ⟨"b", 2⟩]).1 = false
      ∧ (DepthCamera.addParameters [⟨"b", 0⟩] [⟨"a", 1⟩, ⟨"b", 2⟩]).2
          = [⟨"b", 0⟩] ++ List.take 1 [⟨"a", 1⟩, ⟨"b", 2⟩]) :=
  ⟨by decide,
    (claim3_partial_insert [⟨"b", 0⟩] [⟨"a", 1⟩, ⟨"b", 2⟩]).2.1 1 (by decide)⟩

/-- Session state of a `DepthCamera` as far as start/stop/reset touch it:
the callback table, the `_running` flag, whether `start` has handed the
capture loop to a new thread (`_captureThread = ThreadPtr(new Thread(...))`),
and the programmer and streamer capabilities released by `reset`. -/
structure CameraState where
  table : CallbackTable
  running : Bool
  threadLaunched : Bool
  programmer : Option Unit
  streamer : Option Unit

/-- Modelled from the spec: the header declaring `_callback` is not under
src/.  The spec (data model) makes it a fixed-size table of per-stage
callback slots, i.e. a member array, so the test `if(!_callback)` in
`DepthCamera::start` asks whether the address of that array is null - which
it never is. -/
def callbackArrayIsNull (_st : CameraState) : Bool := false

namespace DepthCamera

/-- Embedding of `DepthCamera::start` (DepthCamera.cpp lines 197-214):
the guard `if(!_callback)` (see `callbackArrayIsNull`), then the external
driver start `_start()` whose outcome is `extStartOk`; on success it sets
`_running = true` and launches the capture thread. -/
def start (st : CameraState) (extStartOk : Bool) : Bool × CameraState :=
  if callbackArrayIsNull st then (false, st)
  else if !extStartOk then (false, st)
  else (true, { st with running := true, threadLaunched := true })

/-- Embedding of `DepthCamera::stop` (lines 216-220): clear `_running`,
return true. -/
def stop (st : CameraState) : Bool × CameraState :=
  (true, { st with running := false })

/-- Embedding of `DepthCamera::reset` (lines 237-250): call `stop()`
(bailing out on its failure, which cannot happen), then the external
programmer reset whose outcome is `programmerResetOk`; on its failure
return false leaving the capabilities alone, on success null both
`_programmer` and `_streamer` and return true. -/
def reset (st : CameraState) (programmerResetOk : Bool) : Bool × CameraState :=
  match stop st with
  | (stopOk, s1) =>
    if !stopOk then (false, s1)
    else if !programmerResetOk then (false, s1)
    else (true, { s1 with programmer := none, streamer := none })

end DepthCamera

/-- A freshly configured session: empty callback table, not running, no
thread, both capabilities present. -/
def freshCamera : CameraState :=
  { table := CallbackTable.empty, running := false, threadLaunched := false,
    programmer := some (), streamer := some () }

/-- C2: with an empty subscription mask (no callback registered for any
stage) and the external driver start succeeding, `start()` returns success,
sets `_running` and launches the capture thread: the guard `if(!_callback)`
tests the address of the member callback array, which is never null, so the
no-callback check can never fire, against the claim that `start` must fail
and launch nothing. -/
theorem claim2_start_succeeds_with_empty_mask :
    freshCamera.table.registeredMask = 0
    ∧ (∀ i : Fin 4, freshCamera.table.callback i = false)
    ∧ (DepthCamera.start freshCamera true).1 = true
    ∧ (DepthCamera.start freshCamera true).2.running = true
    ∧ (DepthCamera.start freshCamera true).2.threadLaunched = true := by
  refine ⟨rfl, fun i => rfl, rfl, rfl, rfl⟩

/-- C8: `reset()` succeeds exactly when the external programmer reset does;
on failure the programmer and streamer capabilities are left as they were
(so the caller can retry), on success both are released; either way
`_running` has been cleared by the inner `stop()`. -/
theorem claim8_reset_capability_release :
    ∀ (st : CameraState) (ok : Bool),
      (DepthCamera.reset st ok).1 = ok
      ∧ (DepthCamera.reset st ok).2.programmer
          = (if ok then none else st.programmer)
      ∧ (DepthCamera.reset st ok).2.streamer
          = (if ok then none else st.streamer)
      ∧ (DepthCamera.reset st ok).2.running = false := by
  intro st ok
  cases ok <;> simp [DepthCamera.reset, DepthCamera.stop]

/-- Abstract scalar field standing for the `float` arithmetic of the
projection, with the library functions `_convertToPointCloudFrame` calls.
The claims under proof depend only on which values are copied where, never
on the numeric behavior of these operations, so they are carried as data. -/
structure ScalarOps (α : Type) where
  ofNat : Nat → α
  ofInt : Int → α
  add : α → α → α
  mul : α → α → α
  div : α → α → α
  sqrt : α → α
  tan : α → α
  atan : α → α
  sin : α → α
  cos : α → α
  pi : α
  isZero : α → Bool

/-- A depth frame: identifier, timestamp, `size.width`/`size.height`, and
the per-pixel `depth` and `amplitude` arrays of size width*height, modelled
as index functions. -/
structure DepthFrame (α : Type) where
  id : Nat
  timestamp : Nat
  width : Nat
  height : Nat
  depth : Nat → α
  amplitude : Nat → α

/-- One point of an XYZI point cloud: coordinates and intensity `i`. -/
structure IntensityPoint (α : Type) where
  x : α
  y : α
  z : α
  i : α
deriving DecidableEq

/-- An XYZI point-cloud frame: identifier, timestamp and the point list. -/
structure XYZIPointCloudFrame (α : Type) where
  id : Nat
  timestamp : Nat
  points : List (IntensityPoint α)
deriving DecidableEq

/-- The value-initialized `IntensityPoint` that `std::vector::resize` pads
with (all members zero). -/
def defaultIntensityPoint (ops : ScalarOps α) : IntensityPoint α :=
  { x := ops.ofNat 0, y := ops.ofNat 0, z := ops.ofNat 0, i := ops.ofNat 0 }

/-- `std::vector::resize(n)`: truncate past `n`, pad with `pad` up to `n`. -/
def listResize (l : List β) (n : Nat) (pad : β) : List β :=
  l.take n ++ List.replicate (n - l.length) pad

/-- `focalLength = scaleMax / tan(thetaMax)` with
`scaleMax = sqrt(w*w/4.0f + h*h/4.0f)` (DepthCamera.cpp lines 147 and
157). -/
def focalLengthOf (ops : ScalarOps α) (df : DepthFrame α) (thetaMax : α) : α :=
  ops.div
    (ops.sqrt (ops.add
      (ops.div (ops.ofNat (df.width * df.width)) (ops.ofNat 4))
      (ops.div (ops.ofNat (df.height * df.height)) (ops.ofNat 4))))
    (ops.tan thetaMax)

/-- Body of the per-pixel loop of `_convertToPointCloudFrame` (lines
161-184) at row-major index `idx` (`x = idx % w`, `y = idx / w`):
`x1 = x - w/2`, `y1 = y - h/2` in integer arithmetic, `phi = atan(y1/x1)`
shifted by pi when `x1 < 0`, `theta = atan(sqrt(x1*x1 + y1*y1)/focalLength)`,
giving the spherical point with `r = depth[idx]` and intensity
`amplitude[idx]`. -/
def projectPixel (ops : ScalarOps α) (df : DepthFrame α) (focalLength : α)
    (idx : Nat) : IntensityPoint α :=
  let x : Nat := idx % df.width
  let y : Nat := idx / df.width
  let x1 : Int := (x : Int) - ((df.width / 2 : Nat) : Int)
  let y1 : Int := (y : Int) - ((df.height / 2 : Nat) : Int)
  let phi0 := ops.atan (ops.div (ops.ofInt y1) (ops.ofInt x1))
  let phi := if x1 < 0 then ops.add ops.pi phi0 else phi0
  let theta := ops.atan
    (ops.div (ops.sqrt (ops.ofInt (x1 * x1 + y1 * y1))) focalLength)
  let r := df.depth idx
  { x := ops.mul (ops.mul r (ops.sin theta)) (ops.cos phi)
    y := ops.mul (ops.mul r (ops.sin theta)) (ops.sin phi)
    z := ops.mul r (ops.cos theta)
    i := df.amplitude idx }

/-- The point list the successful conversion writes: one projected point
per row-major index below width*height. -/
def pointCloudPoints (ops : ScalarOps α) (df : DepthFrame α) (thetaMax : α) :
    List (IntensityPoint α) :=
  (List.range (df.width * df.height)).map
    (projectPixel ops df (focalLengthOf ops df thetaMax))

namespace DepthCamera

/-- Embedding of `DepthCamera::_convertToPointCloudFrame` (lines 118-187).
`depthFrame` is the incoming `DepthFramePtr` (`none` = null), the in/out
`pointCloudFrame` is `some` the current buffer when its dynamic type is
already `XYZIPointCloudFrame` (else a fresh frame is allocated), and
`fovResult` is the outcome of the external `getFieldOfView` call (`none` =
the call failed).  Mirroring the source order: null check, buffer choice,
overwrite of id/timestamp and resize of the point vector, then the
field-of-view check, and only past it the per-pixel projection. -/
def convertToPointCloudFrame (ops : ScalarOps α)
    (depthFrame : Option (DepthFrame α))
    (pointCloudFrame : Option (XYZIPointCloudFrame α)) (fovResult : Option α) :
    Bool × Option (XYZIPointCloudFrame α) :=
  match depthFrame with
  | none => (false, pointCloudFrame)
  | some df =>
    let f0 := pointCloudFrame.getD { id := 0, timestamp := 0, points := [] }
    let f1 : XYZIPointCloudFrame α :=
      { id := df.id, timestamp := df.timestamp,
        points := listResize f0.points (df.width * df.height)
          (defaultIntensityPoint ops) }
    match fovResult with
    | none => (false, some f1)
    | some thetaMax =>
      if ops.isZero thetaMax then (false, some f1)
      else (true, some { f1 with points := pointCloudPoints ops df thetaMax })

end DepthCamera

/-- Resizing a list yields the requested length. -/
theorem length_listResize (l : List β) (n : Nat) (pad : β) :
    (listResize l n pad).length = n := by
  simp [listResize]
  omega

/-- Element `idx` of `(List.range n).map f` is `f idx` when `idx < n`. -/
theorem getD_map_range (f : Nat → β) (n idx : Nat) (h : idx < n) (d : β) :
    ((List.range n).map f).getD idx d = f idx := by
  rw [List.getD_eq_getElem?_getD, List.getElem?_map, List.getElem?_range h]
  rfl

/-- C7: given a non-null depth frame and a field of view that the driver
supplies and reports non-zero, the conversion succeeds and the output frame
carries the depth frame's id and timestamp, exactly width*height points in
row-major order, and at every index the point's intensity is exactly the
depth frame's amplitude at that index. -/
theorem claim7_conversion_output :
    ∀ (α : Type) (ops : ScalarOps α) (df : DepthFrame α)
      (buf : Option (XYZIPointCloudFrame α)) (thetaMax : α),
      ops.isZero thetaMax = false →
      (DepthCamera.convertToPointCloudFrame ops (some df) buf
          (some thetaMax)).1 = true
      ∧ ∃ out : XYZIPointCloudFrame α,
          (DepthCamera.convertToPointCloudFrame ops (some df) buf
              (some thetaMax)).2 = some out
          ∧ out.id = df.id
          ∧ out.timestamp = df.timestamp
          ∧ out.points.length = df.width * df.height
          ∧ ∀ idx : Nat, idx < df.width * df.height →
              (out.points.getD idx (defaultIntensityPoint ops)).i
                = df.amplitude idx := by
  intro α ops df buf thetaMax h
  have hconv : DepthCamera.convertToPointCloudFrame ops (some df) buf
      (some thetaMax)
      = (true, some { id := df.id
                      timestamp := df.timestamp
                      points := pointCloudPoints ops df thetaMax }) := by
    simp [DepthCamera.convertToPointCloudFrame, h]
  rw [hconv]
  refine ⟨rfl, _, rfl, rfl, rfl, ?_, ?_⟩
  · simp [pointCloudPoints]
  · intro idx hidx
    show ((pointCloudPoints ops df thetaMax).getD idx
        (defaultIntensityPoint ops)).i = df.amplitude idx
    unfold pointCloudPoints
    rw [getD_map_range _ _ _ hidx]
    rfl

/-- Concrete scalar structure on the integers used to evaluate the
conversion and the loop iteration at witness inputs; the trigonometric
slots are arbitrary since no claim depends on them. -/
def intOps : ScalarOps Int :=
  { ofNat := fun n => (n : Int), ofInt := fun z => z,
    add := fun a b => a + b, mul := fun a b => a * b, div := fun a b => a / b,
    sqrt := fun a => a, tan := fun a => a, atan := fun a => a,
    sin := fun a => a, cos := fun a => a, pi := 3,
    isZero := fun a => a == 0 }

/-- The 2x2 depth frame of the spec's end-to-end vector: depth all 1,
amplitudes 10,20,30,40 in row-major order. -/
def sampleDepthFrame : DepthFrame Int :=
  { id := 5, timestamp := 7, width := 2, height := 2,
    depth := fun _ => 1, amplitude := fun idx => 10 * ((idx : Int) + 1) }

/-- A stale point-cloud buffer left over from an earlier frame. -/
def staleBuffer : XYZIPointCloudFrame Int :=
  { id := 99, timestamp := 88, points := [] }

/-- C7 witness: on the sample 2x2 frame with field of view 1 the conversion
succeeds (by the theorem), and evaluating it shows the four intensities
10,20,30,40 in row-major order. -/
theorem claim7_witness :
    intOps.isZero (1 : Int) = false
    ∧ (DepthCamera.convertToPointCloudFrame intOps (some sampleDepthFrame)
        none (some (1 : Int))).1 = true
    ∧ ((DepthCamera.convertToPointCloudFrame intOps (some sampleDepthFrame)
        none (some (1 : Int))).2.map
          (fun o => o.points.map (fun p => p.i))) = some [10, 20, 30, 40] :=
  ⟨by decide,
    (claim7_conversion_output Int intOps sampleDepthFrame none 1 (by decide)).1,
    by decide⟩

/-- C10: when the output buffer is reused (`some b`) and the incoming depth
frame is non-null but the field-of-view query fails or reports zero, the
conversion returns failure having already overwritten the buffer's id and
timestamp with the depth frame's and resized its point list to
width*height: the error path mutates the output frame. -/
theorem claim10_error_path_mutates :
    ∀ (α : Type) (ops : ScalarOps α) (df : DepthFrame α)
      (b : XYZIPointCloudFrame α) (fov : Option α),
      (fov = none ∨ ∃ t, fov = some t ∧ ops.isZero t = true) →
      DepthCamera.convertToPointCloudFrame ops (some df) (some b) fov
        = (false, some { id := df.id
                         timestamp := df.timestamp
                         points := listResize b.points (df.width * df.height)
                           (defaultIntensityPoint ops) })
      ∧ (listResize b.points (df.width * df.height)
          (defaultIntensityPoint ops)).length = df.width * df.height := by
  intro α ops df b fov h
  refine ⟨?_, length_listResize _ _ _⟩
  rcases h with h | ⟨t, ht, hz⟩
  · subst h
    rfl
  · subst ht
    simp [DepthCamera.convertToPointCloudFrame, hz]

/-- C10 witness: the stale buffer (id 99, timestamp 88, no points) fed to
the conversion with the sample frame (id 5, timestamp 7) and a zero field
of view comes back mutated on the failure path. -/
theorem claim10_witness :
    (some (0 : Int) = none
      ∨ ∃ t : Int, some (0 : Int) = some t ∧ intOps.isZero t = true)
    ∧ (DepthCamera.convertToPointCloudFrame intOps (some sampleDepthFrame)
          (some staleBuffer) (some (0 : Int))
        = (false, some { id := sampleDepthFrame.id
                         timestamp := sampleDepthFrame.timestamp
                         points := listResize staleBuffer.points
                           (sampleDepthFrame.width * sampleDepthFrame.height)
                           (defaultIntensityPoint intOps) })
      ∧ (listResize staleBuffer.points
          (sampleDepthFrame.width * sampleDepthFrame.height)
          (defaultIntensityPoint intOps)).length
          = sampleDepthFrame.width * sampleDepthFrame.height) :=
  ⟨Or.inr ⟨0, rfl, by decide⟩,
    claim10_error_path_mutates Int intOps sampleDepthFrame staleBuffer
      (some 0) (Or.inr ⟨0, rfl, by decide⟩)⟩

/-- The external driver operations one capture-loop iteration may call. -/
inductive ExtOp where
  | captureRaw
  | processRaw
  | convertDepth
  | convertPointCloud
deriving DecidableEq

/-- Per-iteration external-world outcomes: whether
`_captureRawUnprocessedFrame`, `_processRawFrame` and `_convertToDepthFrame`
succeed, the depth-frame pointer handed to the point-cloud conversion, the
point-cloud buffer pulled from the pool (already of the right dynamic type
when `some`), and the `getFieldOfView` outcome inside the conversion. -/
structure IterInputs (α : Type) where
  captureOk : Bool
  processOk : Bool
  depthOk : Bool
  depthResult : Option (DepthFrame α)
  pcBuffer : Option (XYZIPointCloudFrame α)
  fovResult : Option α

/-- Embedding of one iteration of `DepthCamera::_captureLoop` (lines
68-110).  Returns the list of external operations called and the list of
stage ids whose callback slot the code calls into (for the fast path the
slot is called whenever capture succeeds, because the guarding test
`... and _callback` asks whether the member callback array's address is
non-null, which it always is - the slot may be empty).  The fast-path
condition is the source's
`_callBackTypesRegistered == 0 or
_callBackTypesRegistered == CALLBACK_RAW_FRAME_UNPROCESSED`, comparing the
mask with the numeric stage id. -/
def captureIter (ops : ScalarOps α) (tbl : CallbackTable) (inp : IterInputs α) :
    List ExtOp × List Nat :=
  if tbl.registeredMask == 0
      || tbl.registeredMask == CALLBACK_RAW_FRAME_UNPROCESSED then
    ([ExtOp.captureRaw],
      if inp.captureOk then [CALLBACK_RAW_FRAME_UNPROCESSED] else [])
  else if !inp.captureOk then ([ExtOp.captureRaw], [])
  else
    let s0 := DepthCamera.callbackAndContinue tbl tbl.registeredMask (0 : Fin 4)
    let inv0 := if s0.1 then [CALLBACK_RAW_FRAME_UNPROCESSED] else []
    if !s0.2.2 then ([ExtOp.captureRaw], inv0)
    else if !inp.processOk then ([ExtOp.captureRaw, ExtOp.processRaw], inv0)
    else
      let s1 := DepthCamera.callbackAndContinue tbl s0.2.1 (1 : Fin 4)
      let inv1 := inv0 ++ (if s1.1 then [CALLBACK_RAW_FRAME_PROCESSED] else [])
      if !s1.2.2 then ([ExtOp.captureRaw, ExtOp.processRaw], inv1)
      else if !inp.depthOk then
        ([ExtOp.captureRaw, ExtOp.processRaw, ExtOp.convertDepth], inv1)
      else
        let s2 := DepthCamera.callbackAndContinue tbl s1.2.1 (2 : Fin 4)
        let inv2 := inv1 ++ (if s2.1 then [CALLBACK_DEPTH_FRAME] else [])
        if !s2.2.2 then
          ([ExtOp.captureRaw, ExtOp.processRaw, ExtOp.convertDepth], inv2)
        else
          let pc := DepthCamera.convertToPointCloudFrame ops inp.depthResult
            inp.pcBuffer inp.fovResult
          if !pc.1 then
            ([ExtOp.captureRaw, ExtOp.processRaw, ExtOp.convertDepth,
              ExtOp.convertPointCloud], inv2)
          else
            let s3 := DepthCamera.callbackAndContinue tbl s2.2.1 (3 : Fin 4)
            ([ExtOp.captureRaw, ExtOp.processRaw, ExtOp.convertDepth,
              ExtOp.convertPointCloud],
              inv2 ++ (if s3.1 then [CALLBACK_XYZI_POINT_CLOUD_FRAME] else []))

/-- Iteration inputs where every external operation succeeds but the
field-of-view query fails; no depth frame or buffer is around. -/
def sampleIterInputs : IterInputs Int :=
  { captureOk := true, processOk := true, depthOk := true,
    depthResult := none, pcBuffer := none, fovResult := none }

/-- C6: with only the RAW_UNPROCESSED callback registered (subscription
mask = its subscription bit, 1 << 0 = 1), the fast-path test
`mask == 0 or mask == CALLBACK_RAW_FRAME_UNPROCESSED` compares the mask
with the stage id 0 and fails, so the iteration takes the full path and
calls the external raw-processing operation - and with no callback
registered at all the fast path still calls into the empty RAW_UNPROCESSED
slot whenever capture succeeds, since its guard only tests the callback
array's address.  Both contradict the claim. -/
theorem claim6_fast_path_broken :
    (DepthCamera.registerCallback CallbackTable.empty
        CALLBACK_RAW_FRAME_UNPROCESSED).2.registeredMask
      = 1 <<< CALLBACK_RAW_FRAME_UNPROCESSED
    ∧ ExtOp.processRaw ∈
        (captureIter intOps
          (DepthCamera.registerCallback CallbackTable.empty
            CALLBACK_RAW_FRAME_UNPROCESSED).2 sampleIterInputs).1
    ∧ (captureIter intOps CallbackTable.empty sampleIterInputs).2
        = [CALLBACK_RAW_FRAME_UNPROCESSED]
    ∧ CallbackTable.empty.callback (0 : Fin 4) = false := by
  decide

/-- Not a member of a one-element list built by an if, when distinct from
the element. -/
theorem not_mem_ite_singleton {a b : Nat} (c : Prop) [Decidable c]
    (h : ¬ a = b) : a ∉ (if c then [b] else []) := by
  split
  · simp [h]
  · simp

set_option maxHeartbeats 2000000 in
/-- C9: whenever the external field-of-view query fails or reports the
angle as zero, `_convertToPointCloudFrame` returns failure, and the
capture-loop iteration never calls into the POINT_CLOUD callback slot
(stage 3), whatever the callback table and the other outcomes. -/
theorem claim9_bad_fov_fails_no_delivery :
    ∀ (α : Type) (ops : ScalarOps α) (tbl : CallbackTable)
      (inp : IterInputs α),
      (inp.fovResult = none
        ∨ ∃ t, inp.fovResult = some t ∧ ops.isZero t = true) →
      (DepthCamera.convertToPointCloudFrame ops inp.depthResult inp.pcBuffer
          inp.fovResult).1 = false
      ∧ CALLBACK_XYZI_POINT_CLOUD_FRAME ∉ (captureIter ops tbl inp).2 := by
  intro α ops tbl inp h
  have hpc : (DepthCamera.convertToPointCloudFrame ops inp.depthResult
      inp.pcBuffer inp.fovResult).1 = false := by
    cases hd : inp.depthResult with
    | none => simp [DepthCamera.convertToPointCloudFrame]
    | some df =>
      rcases h with h | ⟨t, ht, hz⟩
      · rw [h]
        simp [DepthCamera.convertToPointCloudFrame]
      · rw [ht]
        simp [DepthCamera.convertToPointCloudFrame, hz]
  refine ⟨hpc, ?_⟩
  have h30 : ¬ CALLBACK_XYZI_POINT_CLOUD_FRAME = CALLBACK_RAW_FRAME_UNPROCESSED := by
    decide
  have h31 : ¬ CALLBACK_XYZI_POINT_CLOUD_FRAME = CALLBACK_RAW_FRAME_PROCESSED := by
    decide
  have h32 : ¬ CALLBACK_XYZI_POINT_CLOUD_FRAME = CALLBACK_DEPTH_FRAME := by
    decide
  simp only [captureIter, hpc, Bool.not_false, if_true]
  split_ifs <;>
    simp_all [List.mem_append, not_mem_ite_singleton, List.not_mem_nil]

/-- C9 witness: with the POINT_CLOUD callback registered, every external
operation succeeding but the field-of-view query failing, the conversion
fails and the iteration calls into no POINT_CLOUD slot. -/
theorem claim9_witness :
    (sampleIterInputs.fovResult = none
      ∨ ∃ t : Int, sampleIterInputs.fovResult = some t
          ∧ intOps.isZero t = true)
    ∧ ((DepthCamera.convertToPointCloudFrame intOps
          sampleIterInputs.depthResult sampleIterInputs.pcBuffer
          sampleIterInputs.fovResult).1 = false
      ∧ CALLBACK_XYZI_POINT_CLOUD_FRAME ∉
          (captureIter intOps
            (DepthCamera.registerCallback CallbackTable.empty
              CALLBACK_XYZI_POINT_CLOUD_FRAME).2 sampleIterInputs).2) :=
  ⟨Or.inl rfl,
    claim9_bad_fov_fails_no_delivery Int intOps
      (DepthCamera.registerCallback CallbackTable.empty
        CALLBACK_XYZI_POINT_CLOUD_FRAME).2 sampleIterInputs (Or.inl rfl)⟩

end Voxel
